import Mathlib

/-! Verification of the LangMem demo repository: a namespaced key-value
memory store with three memory kinds (semantic, episodic, procedural),
an instruction-optimization loop for procedural memory, and thin demo
entry points.  Definitions are shallow embeddings of the Python source
in src/hello.py and src/notebooks/.  The Record Store itself (langgraph
InMemoryStore) and the embedding provider are not part of the repository
source; where a claim depends on them they are modelled from the spec. -/

/-- A chat message, as the dictionaries with role and content fields used
throughout the source. -/
structure Message where
  role : String
  content : String
deriving DecidableEq, Repr

/-- The agent state passed to the prompt function; its messages field is
the message list the source reads. -/
structure AgentState where
  messages : List Message
deriving DecidableEq, Repr

/-- A hierarchical namespace: an ordered sequence of string segments, as
the Python tuples such as ("instructions",) and ("user_facts", "user123"). -/
abbrev Namespace := List String

/-- A stored value: a string-keyed dictionary, as the Python payloads such
as the prompt dictionary. -/
abbrev Value := List (String × String)

/-- The procedural-memory payload holding one prompt string. -/
def mkPrompt (s : String) : Value := [("prompt", s)]

/-- Modelled from the spec: a record of the Record Store (the store
implementation, langgraph InMemoryStore, is not under src/). -/
structure Record where
  ns : Namespace
  key : String
  value : Value
deriving DecidableEq, Repr

/-- Modelled from the spec: the Record Store state, a collection of
records grouped by namespace and key. -/
abbrev Store := List Record

/-- Whether a record sits at exactly the given namespace and key. -/
def matchKey (ns : Namespace) (key : String) (r : Record) : Bool :=
  decide (r.ns = ns) && decide (r.key = key)

/-- Modelled from the spec: put inserts or overwrites the record at the
given namespace and key. -/
def Store.put (s : Store) (ns : Namespace) (key : String) (v : Value) : Store :=
  { ns := ns, key := key, value := v } :: s.filter (fun r => !(matchKey ns key r))

/-- Modelled from the spec: exact lookup of the record at a namespace and
key. -/
def Store.getRecord (s : Store) (ns : Namespace) (key : String) : Option Record :=
  s.find? (matchKey ns key)

/-- Modelled from the spec: get is exact lookup; none is the NotFound
outcome — it never substitutes a default. -/
def Store.get (s : Store) (ns : Namespace) (key : String) : Option Value :=
  (s.getRecord ns key).map Record.value

/-- Modelled from the spec: a search scoped to namespace N returns only
records stored under exactly N (no parent or child inheritance). -/
def Store.search (s : Store) (ns : Namespace) : List Record :=
  s.filter (fun r => decide (r.ns = ns))

/-- Tool namespace from setup_procedural_agent in procedural_memory.py. -/
def procedural_tool_ns : Namespace := ["instructions", "email_agent"]

/-- Tool namespace from setup_semantic_agent in semantic_memory.py. -/
def semantic_tool_ns : Namespace := ["user_facts", "user123"]

/-- Tool namespace from setup_episodic_agent in episodic_memory.py. -/
def episodic_tool_ns : Namespace := ["episodes", "user123"]

/-- Tool namespace from setup_agent in hello.py. -/
def hello_tool_ns : Namespace := ["memories"]

/-- The namespace used by every direct instruction read and write in
procedural_memory.py: store.get and store.put are called with the
one-segment tuple ("instructions",). -/
def instruction_store_ns : Namespace := ["instructions"]

/-- The key used by every direct instruction read and write in
procedural_memory.py. -/
def instruction_key : String := "email_agent"

/-- The default instruction string of email_prompt and of the seeding put
in demonstrate_procedural_memory. -/
def default_prompt : String := "Write professional emails."

/-- The system message built by email_prompt. -/
def sysMsg (instructions : String) : Message :=
  { role := "system", content := "Instructions: " ++ instructions }

/-- Outcome of the store.get call inside email_prompt: a successful lookup
(possibly NotFound) or a raised exception. -/
inductive GetOutcome where
  | ok (item : Option Value)
  | err (e : String)
deriving DecidableEq, Repr

/-- email_prompt from create_email_prompt_function: on a found item it
prepends the stored prompt as a system message; on NotFound, on a payload
without a prompt field (the KeyError is caught by the except branch), or
on any store error, it prepends the default instead.  All branches return
the system message followed by the state messages unchanged. -/
def email_prompt (o : GetOutcome) (state : AgentState) : List Message :=
  match o with
  | .ok (some item) =>
      match item.lookup "prompt" with
      | some instructions => sysMsg instructions :: state.messages
      | none => sysMsg default_prompt :: state.messages
  | .ok none => sysMsg default_prompt :: state.messages
  | .err _ => sysMsg default_prompt :: state.messages

/-- The instruction text email_prompt displays for each lookup outcome. -/
def instructionTextOf (o : GetOutcome) : String :=
  match o with
  | .ok (some item) => (item.lookup "prompt").getD default_prompt
  | .ok none => default_prompt
  | .err _ => default_prompt

/-- email_prompt run against a store: the body only reads the store via
store.get, so the store comes back unchanged. -/
def email_prompt_step (s : Store) (state : AgentState) : List Message × Store :=
  (email_prompt (.ok (Store.get s instruction_store_ns instruction_key)) state, s)

/-- draft_email from procedural_memory.py: the confirmation string mentions
only the recipient and the subject. -/
def draft_email (to_ : String) (subject : String) (body : String) : String :=
  "Email drafted successfully to " ++ to_ ++ " with subject: " ++ subject

/-- The hardcoded suffix appended in both fallback branches of
demonstrate_procedural_memory (lines 141 and 157). -/
def fallback_suffix : String :=
  " Always sign \x27Best regards, William\x27 and offer Zoom/Google Meet options for meetings."

/-- Outcome of optimizer.invoke in demonstrate_procedural_memory: a result
with a content attribute, a dictionary with a content entry, some other
shape, or a raised exception. -/
inductive OptimizerOutcome where
  | contentAttr (s : String)
  | contentKey (s : String)
  | otherShape
  | failure (e : String)
deriving DecidableEq, Repr

/-- The optimized_prompt committed by demonstrate_procedural_memory for
each optimizer outcome: the optimizer text when its shape is recognised,
otherwise the current prompt followed by the fixed hardcoded suffix.  The
fallback never reads the feedback string. -/
def optimized_prompt_of (current_prompt : String) (o : OptimizerOutcome) : String :=
  match o with
  | .contentAttr s => s
  | .contentKey s => s
  | .otherShape => current_prompt ++ fallback_suffix
  | .failure _ => current_prompt ++ fallback_suffix

/-- A store operation issued directly by the demo scripts. -/
inductive StoreOp where
  | putOp (ns : Namespace) (key : String) (v : Value)
  | getOp (ns : Namespace) (key : String)
  | searchOp (ns : Namespace)
deriving DecidableEq, Repr

/-- The namespace a store operation is scoped to. -/
def StoreOp.nsOf : StoreOp → Namespace
  | .putOp n _ _ => n
  | .getOp n _ => n
  | .searchOp n => n

/-- The key a store operation addresses, when it addresses one. -/
def StoreOp.keyOf : StoreOp → Option String
  | .putOp _ k _ => some k
  | .getOp _ k => some k
  | .searchOp _ => none

/-- The instruction commit shared by all store.put calls of
procedural_memory.py: namespace ("instructions",), key email_agent, value
a prompt dictionary. -/
def instruction_put (s : Store) (p : String) : Store :=
  s.put instruction_store_ns instruction_key (mkPrompt p)

/-- The store operations demonstrate_procedural_memory issues directly:
seed the default instruction, read it back, commit the optimized or
fallback instruction, and list the namespace. -/
def procedural_demo_ops (o : OptimizerOutcome) : List StoreOp :=
  [ .putOp instruction_store_ns instruction_key (mkPrompt default_prompt),
    .getOp instruction_store_ns instruction_key,
    .putOp instruction_store_ns instruction_key
      (mkPrompt (optimized_prompt_of default_prompt o)),
    .searchOp instruction_store_ns ]

/-- The put operations of the try and except branches of the
optimize-and-commit step (lines 128-163): each execution path performs
exactly one store.put. -/
def optimize_commit_ops (current_prompt : String) (o : OptimizerOutcome) : List StoreOp :=
  [ .putOp instruction_store_ns instruction_key
      (mkPrompt (optimized_prompt_of current_prompt o)) ]

/-- The feedback list of demonstrate_behavior_evolution. -/
def feedback_iterations : List String :=
  [ "Always use formal language",
    "Include meeting agenda in meeting emails",
    "Use bullet points for action items",
    "Always confirm receipt of important documents" ]

/-- The successive current_prompt values of the evolution loop, which
appends each feedback string onto the running prompt. -/
def accumulate (current_prompt : String) : List String → List String
  | [] => []
  | fb :: rest =>
      (current_prompt ++ " " ++ fb) :: accumulate (current_prompt ++ " " ++ fb) rest

/-- The store operations demonstrate_behavior_evolution issues: the seed
put, then one put per feedback iteration. -/
def evolution_ops : List StoreOp :=
  StoreOp.putOp instruction_store_ns instruction_key (mkPrompt default_prompt)
    :: (accumulate default_prompt feedback_iterations).map
        (fun p => StoreOp.putOp instruction_store_ns instruction_key (mkPrompt p))

/-- Python truthiness of the OPENAI_API_KEY lookup: a missing or empty
variable is falsy, so the guard in each main block triggers the exit. -/
def api_key_missing (key : Option String) : Bool :=
  match key with
  | none => true
  | some s => decide (s = "")

/-- What a main block does: exit with a code before any memory operation,
or run the demo and its store operations. -/
inductive MainOutcome where
  | exited (code : Nat)
  | ran (ops : List StoreOp)
deriving DecidableEq, Repr

/-- The memory operations a main outcome performed. -/
def MainOutcome.memOps : MainOutcome → List StoreOp
  | .exited _ => []
  | .ran ops => ops

/-- The main block of hello.py: exit with code 1 when the key is missing,
else run the demo (whose memory traffic goes through agent tool calls, not
direct store operations). -/
def hello_main (key : Option String) : MainOutcome :=
  if api_key_missing key then .exited 1 else .ran []

/-- The main block of semantic_memory.py. -/
def semantic_main (key : Option String) : MainOutcome :=
  if api_key_missing key then .exited 1 else .ran [.searchOp semantic_tool_ns]

/-- The main block of episodic_memory.py. -/
def episodic_main (key : Option String) : MainOutcome :=
  if api_key_missing key then .exited 1 else .ran [.searchOp episodic_tool_ns]

/-- The main block of procedural_memory.py. -/
def procedural_main (key : Option String) (o : OptimizerOutcome) : MainOutcome :=
  if api_key_missing key then .exited 1
  else .ran (procedural_demo_ops o ++ evolution_ops)

/-- The dims entry of the InMemoryStore index configuration in hello.py. -/
def hello_index_dims : Nat := 1536

/-- The dims entry of the InMemoryStore index configuration in
semantic_memory.py. -/
def semantic_index_dims : Nat := 1536

/-- The dims entry of the InMemoryStore index configuration in
episodic_memory.py. -/
def episodic_index_dims : Nat := 1536

/-- The dims entry of the InMemoryStore index configuration in
procedural_memory.py. -/
def procedural_index_dims : Nat := 1536

/-- Modelled from the spec: the Embedding Provider boundary mapping text
to a vector of the fixed dimension D (the provider itself is an external
capability). -/
def embed (d : Nat) (t : String) : List Nat :=
  (List.range d).map (fun i => t.length + i)

/-- Modelled from the spec: a record on the indexed path carries an
embedding computed from its textual payload. -/
structure IndexedRecord where
  ns : Namespace
  key : String
  text : String
  embedding : List Nat
deriving DecidableEq, Repr

/-- Modelled from the spec: a store instance together with its fixed
embedding dimension. -/
structure IndexedStore where
  dims : Nat
  records : List IndexedRecord
deriving DecidableEq, Repr

/-- Modelled from the spec: an indexed put recomputes the embedding with
the store instance's own dimension. -/
def IndexedStore.put (s : IndexedStore) (ns : Namespace) (key : String)
    (text : String) : IndexedStore :=
  { s with records :=
      { ns := ns, key := key, text := text, embedding := embed s.dims text }
        :: s.records.filter (fun r => !(decide (r.ns = ns) && decide (r.key = key))) }

/-- A fresh store instance with the configured dimension. -/
def IndexedStore.init (d : Nat) : IndexedStore := { dims := d, records := [] }

/-- Run a sequence of indexed puts against a store instance. -/
def runPuts : IndexedStore → List (Namespace × String × String) → IndexedStore
  | s, [] => s
  | s, op :: ops => runPuts (s.put op.1 op.2.1 op.2.2) ops

theorem countP_filter_not (p : Record → Bool) (l : List Record) :
    (l.filter (fun r => !(p r))).countP p = 0 := by
  rw [List.countP_eq_zero]
  intro a ha
  have h := (List.mem_filter.mp ha).2
  simpa using h

theorem get_put (s : Store) (ns : Namespace) (key : String) (v : Value) :
    Store.get (s.put ns key v) ns key = some v := by
  have h : matchKey ns key { ns := ns, key := key, value := v } = true := by
    simp [matchKey]
  unfold Store.get Store.getRecord Store.put
  rw [List.find?_cons_of_pos _ h]
  rfl

theorem countP_put (s : Store) (ns : Namespace) (key : String) (v : Value) :
    (s.put ns key v).countP (matchKey ns key) = 1 := by
  unfold Store.put
  rw [List.countP_cons]
  have h : matchKey ns key { ns := ns, key := key, value := v } = true := by
    simp [matchKey]
  rw [countP_filter_not, h]
  rfl

theorem embed_length (d : Nat) (t : String) : (embed d t).length = d := by
  simp [embed]

theorem put_preserves_len (s : IndexedStore) (ns : Namespace) (key t : String)
    (h : (s.records.all fun r => r.embedding.length == s.dims) = true) :
    ((IndexedStore.put s ns key t).records.all
        fun r => r.embedding.length == (IndexedStore.put s ns key t).dims) = true := by
  rw [List.all_eq_true] at h ⊢
  intro r hr
  simp only [IndexedStore.put] at hr ⊢
  rcases List.mem_cons.mp hr with h1 | h1
  · subst h1
    simp [embed_length]
  · exact h r (List.mem_of_mem_filter h1)

theorem runPuts_dims (ops : List (Namespace × String × String))
    (s : IndexedStore) : (runPuts s ops).dims = s.dims := by
  induction ops generalizing s with
  | nil => rfl
  | cons op ops ih =>
      rw [runPuts]
      exact (ih (s.put op.1 op.2.1 op.2.2)).trans rfl

theorem runPuts_embedding_len (ops : List (Namespace × String × String))
    (s : IndexedStore)
    (h : (s.records.all fun r => r.embedding.length == s.dims) = true) :
    ((runPuts s ops).records.all
        fun r => r.embedding.length == (runPuts s ops).dims) = true := by
  induction ops generalizing s with
  | nil => simpa [runPuts] using h
  | cons op ops ih =>
      rw [runPuts]
      exact ih (s.put op.1 op.2.1 op.2.2) (put_preserves_len s op.1 op.2.1 op.2.2 h)

/-- Claim C1, counterexample: with current instruction
"Write professional emails." the failure-path commit is the current
instruction followed by the fixed hardcoded suffix, not the byte-for-byte
concatenation with the feedback "Always sign as William". -/
theorem c1_fallback_counterexample :
    optimized_prompt_of "Write professional emails."
        (.failure "capability unavailable")
      ≠ "Write professional emails. Always sign as William" := by
  decide

/-- Claim C1 (amended): on capability failure the optimize step commits the
deterministic string made of the current prompt and the fixed fallback
suffix — a suffix independent of the feedback — and every optimizer
outcome, success or failure, leads to exactly one committed instruction. -/
theorem c1_fallback_commit_amended (current_prompt : String) (e : String)
    (o : OptimizerOutcome) :
    optimized_prompt_of current_prompt (.failure e)
        = current_prompt ++ fallback_suffix
      ∧ (optimize_commit_ops current_prompt o).length = 1 :=
  ⟨rfl, rfl⟩

/-- Claim C2, counterexample: the direct instruction reads and writes use
the one-segment namespace ("instructions",) with key email_agent, which is
not the two-segment namespace the claim requires. -/
theorem c2_namespace_counterexample :
    instruction_store_ns ≠ procedural_tool_ns
      ∧ StoreOp.nsOf (.getOp instruction_store_ns instruction_key)
          ≠ ["instructions", "email_agent"] :=
  ⟨by decide, by decide⟩

/-- Claim C2 (amended): the procedural tool namespace is the constant
two-segment namespace of instructions and email_agent, while every direct
instruction store operation of both procedural demos is scoped to the
constant one-segment namespace ("instructions",) and, for gets and puts,
the key email_agent; each mapping is total and deterministic because it is
a fixed constant. -/
theorem c2_namespace_amended (o : OptimizerOutcome) :
    procedural_tool_ns = ["instructions", "email_agent"]
      ∧ ((procedural_demo_ops o ++ evolution_ops).all
          (fun op => decide (StoreOp.nsOf op = instruction_store_ns)
            && decide (StoreOp.keyOf op = some instruction_key
                        ∨ StoreOp.keyOf op = none))) = true := by
  refine ⟨rfl, ?_⟩
  cases o <;> rfl

/-- Claim C3: on the empty store the instruction lookup returns NotFound
(none, never a substituted value); after the Memory Manager seeds the
default instruction, the same lookup returns exactly that default. -/
theorem c3_seed_default :
    Store.get ([] : Store) instruction_store_ns instruction_key = none
      ∧ Store.get (instruction_put [] default_prompt)
          instruction_store_ns instruction_key = some (mkPrompt default_prompt) :=
  ⟨rfl, get_put _ _ _ _⟩

/-- Claim C4, counterexample: a store-layer lookup error inside
email_prompt is not propagated — the error outcome returns the same
default-instruction message list as the NotFound outcome, so the return
value carries no error or fallback signal. -/
theorem c4_error_swallow_counterexample :
    email_prompt (.err "connection refused") { messages := [] }
        = email_prompt (.ok none) { messages := [] }
      ∧ email_prompt (.err "connection refused") { messages := [] }
        = [sysMsg default_prompt] :=
  ⟨rfl, rfl⟩

/-- Claim C4 (amended): on any store-layer lookup error email_prompt
swallows the error and returns the default-instruction prompt list,
identical to the NotFound result; the fallback is observable only in the
printed log, never in the return value. -/
theorem c4_error_swallow_amended (e : String) (state : AgentState) :
    email_prompt (.err e) state = sysMsg default_prompt :: state.messages
      ∧ email_prompt (.err e) state = email_prompt (.ok none) state :=
  ⟨rfl, rfl⟩

/-- Claim C5: two successive commits to the same namespace and key leave
the second committed value alone — get returns exactly the second
candidate and exactly one record is live at that key — and in particular
committing the prompt A and then the prompt B via instruction_put stores
the prompt B, not the concatenation of both candidates. -/
theorem c5_replace_not_append (s : Store) (ns : Namespace) (key : String)
    (v1 v2 : Value) :
    Store.get ((s.put ns key v1).put ns key v2) ns key = some v2
      ∧ ((s.put ns key v1).put ns key v2).countP (matchKey ns key) = 1
      ∧ Store.get (instruction_put (instruction_put [] "A") "B")
          instruction_store_ns instruction_key = some (mkPrompt "B")
      ∧ mkPrompt "B" ≠ mkPrompt ("A" ++ " " ++ "B") :=
  ⟨get_put _ _ _ _, countP_put _ _ _ _, get_put _ _ _ _, by decide⟩

/-- Claim C6: for distinct namespaces — including one being a proper
leading segment sequence of the other — a record stored under the first is
never returned by a search or a get scoped to the second: every search
result and every resolved record carries the second namespace. -/
theorem c6_namespace_isolation (s : Store) (n1 n2 : Namespace) (k : String)
    (h : n1 ≠ n2) :
    ((s.search n2).all fun r => decide (r.ns ≠ n1)) = true
      ∧ ((s.getRecord n2 k).all fun r => decide (r.ns ≠ n1)) = true := by
  constructor
  · rw [List.all_eq_true]
    intro r hr
    have h2 := (List.mem_filter.mp hr).2
    have h3 : r.ns = n2 := by simpa using h2
    simp only [decide_eq_true_eq]
    rw [h3]
    exact Ne.symm h
  · cases hr : Store.getRecord s n2 k with
    | none => rfl
    | some r =>
        have hr2 : s.find? (matchKey n2 k) = some r := hr
        have hp := List.find?_some hr2
        simp only [matchKey, Bool.and_eq_true, decide_eq_true_eq] at hp
        simp only [Option.all, decide_eq_true_eq]
        rw [hp.1]
        exact Ne.symm h

/-- Claim C6 witness: a record stored under the one-segment instructions
namespace is invisible to the search and the get scoped to the two-segment
namespace of instructions and email_agent. -/
theorem c6_namespace_isolation_witness :
    (((instruction_put [] default_prompt).search
        ["instructions", "email_agent"]).all fun r =>
          decide (r.ns ≠ (["instructions"] : Namespace))) = true
      ∧ (((instruction_put [] default_prompt).getRecord
        ["instructions", "email_agent"] "email_agent").all fun r =>
          decide (r.ns ≠ (["instructions"] : Namespace))) = true :=
  c6_namespace_isolation (instruction_put [] default_prompt)
    ["instructions"] ["instructions", "email_agent"] "email_agent" (by decide)

/-- Claim C7: when the OPENAI_API_KEY credential is absent (or empty,
which is also falsy in the source's guard) each of the four entry points
exits with code 1 and performs no memory operation. -/
theorem c7_missing_key_exits (key : Option String) (o : OptimizerOutcome)
    (h : api_key_missing key = true) :
    hello_main key = .exited 1 ∧ (hello_main key).memOps = []
      ∧ semantic_main key = .exited 1 ∧ (semantic_main key).memOps = []
      ∧ episodic_main key = .exited 1 ∧ (episodic_main key).memOps = []
      ∧ procedural_main key o = .exited 1
      ∧ (procedural_main key o).memOps = [] := by
  simp [hello_main, semantic_main, episodic_main, procedural_main, h,
    MainOutcome.memOps]

/-- Claim C7 witness: with no credential set, all four entry points exit
with code 1 and perform no memory operation. -/
theorem c7_missing_key_exits_witness :
    hello_main none = .exited 1 ∧ (hello_main none).memOps = []
      ∧ semantic_main none = .exited 1 ∧ (semantic_main none).memOps = []
      ∧ episodic_main none = .exited 1 ∧ (episodic_main none).memOps = []
      ∧ procedural_main none .otherShape = .exited 1
      ∧ (procedural_main none .otherShape).memOps = [] :=
  c7_missing_key_exits none .otherShape (by decide)

/-- Claim C8: every store instance is configured with dimension 1536, and
on the indexed path every record's embedding is computed with the store
instance's own dimension, so all records of a store configured at 1536
carry length-1536 embeddings. -/
theorem c8_fixed_dims :
    hello_index_dims = 1536 ∧ semantic_index_dims = 1536
      ∧ episodic_index_dims = 1536 ∧ procedural_index_dims = 1536
      ∧ ∀ ops : List (Namespace × String × String),
          ((runPuts (IndexedStore.init procedural_index_dims) ops).records.all
              fun r => r.embedding.length == 1536) = true := by
  refine ⟨rfl, rfl, rfl, rfl, ?_⟩
  intro ops
  have h := runPuts_embedding_len ops (IndexedStore.init procedural_index_dims) rfl
  have hd : (runPuts (IndexedStore.init procedural_index_dims) ops).dims = 1536 :=
    (runPuts_dims ops (IndexedStore.init procedural_index_dims)).trans rfl
  rw [hd] at h
  exact h

/-- Claim C9: for every lookup outcome and state, email_prompt returns a
single system message whose content is the word Instructions, a colon and
the instruction text, followed by the input messages unchanged; the
definition is total (never raises inside the typed model) and the
store-passing step returns the store unchanged. -/
theorem c9_email_prompt_shape (o : GetOutcome) (state : AgentState) (s : Store) :
    email_prompt o state = sysMsg (instructionTextOf o) :: state.messages
      ∧ (email_prompt_step s state).2 = s := by
  refine ⟨?_, rfl⟩
  cases o with
  | ok item =>
      cases item with
      | none => rfl
      | some v =>
          cases h : v.lookup "prompt" with
          | none => simp [email_prompt, instructionTextOf, h]
          | some instr => simp [email_prompt, instructionTextOf, h]
  | err e => rfl

/-- Claim C10: the confirmation from draft_email depends only on the
recipient and the subject — any two body arguments give the identical
string. -/
theorem c10_draft_email_body_independent (to_ subject b1 b2 : String) :
    draft_email to_ subject b1 = draft_email to_ subject b2 :=
  rfl
